import Mathlib

/-!
# Stella: bezel geometry, QuadTari dialog and joystick dialog

A shallow embedding of `src/common/Bezel.hxx`, `src/gui/QuadTariDialog.cxx` and
`src/gui/JoystickDialog.cxx`, followed by the properties proved about them.

Unsigned 32-bit quantities are natural numbers; every statement below holds for all
naturals and therefore on the 32-bit range.
-/

namespace Stella

/-! ## Common geometry (Rect.hxx) -/

namespace Common

/-- Modelled from the spec: `Common::Size` of Rect.hxx, which is not among the sources.
A pair (width, height) in pixels; Bezel.hxx reads the two fields as `size().w` and
`size().h`. -/
structure Size where
  w : Nat
  h : Nat
deriving DecidableEq

/-- Modelled from the spec: `Common::Rect` of Rect.hxx, which is not among the sources.
A rectangle (x, y, width, height) in pixels; Bezel.hxx reads the extent as
`window().w()` and `window().h()`. -/
structure Rect where
  x : Nat
  y : Nat
  w : Nat
  h : Nat
deriving DecidableEq

/-- Modelled from the spec: the two-argument construction `Common::Rect{w, h}` used for
the default window, the `w` by `h` rectangle at the origin (the "degenerate 1×1
rectangle" of the default `Info`). -/
def Rect.ofWH (w h : Nat) : Rect := ⟨0, 0, w, h⟩

/-- Right edge of a rectangle (first column outside of it). -/
def Rect.right (r : Rect) : Nat := r.x + r.w

/-- Bottom edge of a rectangle (first row outside of it). -/
def Rect.bottom (r : Rect) : Nat := r.y + r.h

end Common

/-! ## Values of type `double` -/

/-- Value of a C++ `double` expression. A finite value is carried as the exact rational
it denotes: the conversion of an unsigned 32-bit integer to `double` is exact, and the
rounding of a quotient to the nearest binary64 value is abstracted. A division by zero
does not trap; it yields an infinity or a NaN. -/
inductive Double where
  | finite (v : ℚ)
  | infinity
  | nan
deriving DecidableEq

/-- The expression `static_cast<double>(a) / b` for unsigned `a` and `b`: the left
operand is converted first, so the division is a floating-point one, not the
truncating integer division `a / b`. -/
def Double.divUInt32 (a b : Nat) : Double :=
  if b = 0 then (if a = 0 then Double.nan else Double.infinity)
  else Double.finite ((a : ℚ) / (b : ℚ))

/-! ## Bezel::Info (Bezel.hxx, lines 62-81) -/

/-- The structure `Bezel::Info`; the three members are private in the source. -/
structure Bezel.Info where
  _isShown : Bool
  _size : Common.Size
  _window : Common.Rect
deriving DecidableEq

namespace Bezel.Info

/-- The constructor `Info() = default`: the default member initialisers
`_isShown{false}`, `_size{1, 1}`, `_window{1, 1}`. -/
def defaultInfo : Info := ⟨false, ⟨1, 1⟩, Common.Rect.ofWH 1 1⟩

/-- The constructor `Info(Common::Size size, Common::Rect window)`. -/
def ofSizeWindow (size : Common.Size) (window : Common.Rect) : Info :=
  ⟨true, size, window⟩

/-- The accessor `isShown()`. -/
def isShown (i : Info) : Bool := i._isShown

/-- The accessor `size()`. -/
def size (i : Info) : Common.Size := i._size

/-- The accessor `window()`. -/
def window (i : Info) : Common.Rect := i._window

/-- The method `ratioW()`: `static_cast<double>(size().w) / window().w()`. -/
def ratioW (i : Info) : Double := Double.divUInt32 i.size.w i.window.w

/-- The method `ratioH()`: `static_cast<double>(size().h) / window().h()`. -/
def ratioH (i : Info) : Double := Double.divUInt32 i.size.h i.window.h

/-- The values that the public constructors of `Info` can build. -/
inductive Constructible : Info → Prop
  | default : Constructible defaultInfo
  | ofSizeWindow (size : Common.Size) (window : Common.Rect) :
      Constructible (ofSizeWindow size window)

/-- The invariant of the data model: the window lies inside the artwork and is not
empty. -/
def windowInvariant (i : Info) : Prop :=
  i.window.right ≤ i.size.w ∧ i.window.bottom ≤ i.size.h ∧
    0 < i.window.w ∧ 0 < i.window.h

instance (i : Info) : Decidable (windowInvariant i) := by
  unfold windowInvariant; infer_instance

/-- The five operations of `Info`, all of them `const` member functions. -/
inductive Op where
  | isShown
  | size
  | window
  | ratioW
  | ratioH
deriving DecidableEq

/-- What an operation of `Info` returns. -/
inductive Value where
  | bool (b : Bool)
  | size (s : Common.Size)
  | rect (r : Common.Rect)
  | real (d : Double)
deriving DecidableEq

/-- One call of a member function on an `Info` object: the value returned and the
object afterwards. -/
def call : Op → Info → Value × Info
  | Op.isShown, i => (Value.bool i.isShown, i)
  | Op.size, i => (Value.size i.size, i)
  | Op.window, i => (Value.rect i.window, i)
  | Op.ratioW, i => (Value.real i.ratioW, i)
  | Op.ratioH, i => (Value.real i.ratioH, i)

/-- The object after a sequence of calls, made one after the other. -/
def run : List Op → Info → Info
  | [], i => i
  | op :: ops, i => run ops (call op i).2

end Bezel.Info

/-! ## Bezel (Bezel.hxx, lines 56-138) -/

/-- The class `Bezel`, reduced to its member `Info myInfo`; the references to the
system and the frame buffer and the surface play no part in what follows. -/
structure Bezel where
  myInfo : Bezel.Info
deriving DecidableEq

namespace Bezel

/-- Modelled from the spec: the constructor `Bezel::Bezel(OSystem&)`, whose body is in
Bezel.cxx and not among the sources. The member is declared `Info myInfo;` without an
initialiser and `isShown()` "starts false": the member is default-constructed. -/
def create : Bezel := ⟨Info.defaultInfo⟩

/-- The method `Bezel::info()`. -/
def info (b : Bezel) : Info := b.myInfo

/-- The method `Bezel::isShown()`. -/
def isShown (b : Bezel) : Bool := b.myInfo.isShown

/-- The method `Bezel::size()`. -/
def size (b : Bezel) : Common.Size := b.myInfo.size

/-- The method `Bezel::window()`. -/
def window (b : Bezel) : Common.Rect := b.myInfo.window

/-- The method `Bezel::ratioW()`. -/
def ratioW (b : Bezel) : Double := b.myInfo.ratioW

/-- The method `Bezel::ratioH()`. -/
def ratioH (b : Bezel) : Double := b.myInfo.ratioH

end Bezel

/-! ## Widgets shared by the dialogs -/

/-- Modelled from the spec: a widget of the GUI toolkit (Widget.hxx is not among the
sources; the toolkit is a black-box service there), reduced to the enabled flag that
`setEnabled(bool)` writes and `isEnabled()` reads. Used for static text labels and
buttons. -/
structure Widget where
  enabled : Bool
deriving DecidableEq

/-- The toolkit call `setEnabled(e)`. -/
def Widget.setEnabled (w : Widget) (e : Bool) : Widget := { w with enabled := e }

/-- The toolkit call `isEnabled()`. -/
def Widget.isEnabled (w : Widget) : Bool := w.enabled

/-- Modelled from the spec: a popup widget of the GUI toolkit (PopUpWidget.hxx is not
among the sources), reduced to its enabled flag and the tag of the selected entry, as
the string that `getSelectedTag().toString()` returns. -/
structure PopUpWidget where
  enabled : Bool
  selectedTag : String
deriving DecidableEq

/-- The toolkit call `setEnabled(e)` on a popup. -/
def PopUpWidget.setEnabled (w : PopUpWidget) (e : Bool) : PopUpWidget :=
  { w with enabled := e }

/-- The toolkit call `getSelectedTag().toString()`. -/
def PopUpWidget.getSelectedTag (w : PopUpWidget) : String := w.selectedTag

/-! ## QuadTariDialog (QuadTariDialog.cxx) -/

/-- The keys of the game properties. Props.hxx is not among the sources: the keys
named in QuadTariDialog.cxx are listed, `other n` stands for the rest of the
enumeration. -/
inductive PropType where
  | Cart_MD5
  | Controller_Left1
  | Controller_Left2
  | Controller_Right1
  | Controller_Right2
  | other (n : Nat)
deriving DecidableEq

/-- The members of `QuadTariDialog` that `show` and `saveConfig` touch. The type `P`
is the class `Properties` (Props.hxx, not among the sources), taken as a parameter;
`myGameProperties` is a reference to the properties of the game being edited. -/
structure QuadTariDialog (P : Type) where
  myLeftPortLabel : Widget
  myLeft1Port : PopUpWidget
  myLeft2Port : PopUpWidget
  myRightPortLabel : Widget
  myRight1Port : PopUpWidget
  myRight2Port : PopUpWidget
  myGameProperties : P

namespace QuadTariDialog

variable {P : Type}

/-- The method `QuadTariDialog::show(bool enableLeft, bool enableRight)` (lines
100-110). `openDialog` is `Dialog::open()` of the base class, which is not among the
sources and is taken as a parameter. -/
def «show» (openDialog : QuadTariDialog P → QuadTariDialog P)
    (enableLeft enableRight : Bool) (d : QuadTariDialog P) : QuadTariDialog P :=
  let d := { d with myLeftPortLabel := d.myLeftPortLabel.setEnabled enableLeft }
  let d := { d with myLeft1Port := d.myLeft1Port.setEnabled enableLeft }
  let d := { d with myLeft2Port := d.myLeft2Port.setEnabled enableLeft }
  let d := { d with myRightPortLabel := d.myRightPortLabel.setEnabled enableRight }
  let d := { d with myRight1Port := d.myRight1Port.setEnabled enableRight }
  let d := { d with myRight2Port := d.myRight2Port.setEnabled enableRight }
  openDialog d

/-- The user choosing an entry in each of the four popups of the open dialog. -/
def select (left1 left2 right1 right2 : String) (d : QuadTariDialog P) :
    QuadTariDialog P :=
  { d with
    myLeft1Port := { d.myLeft1Port with selectedTag := left1 }
    myLeft2Port := { d.myLeft2Port with selectedTag := left2 }
    myRight1Port := { d.myRight1Port with selectedTag := right1 }
    myRight2Port := { d.myRight2Port with selectedTag := right2 } }

/-- The method `QuadTariDialog::saveConfig()` (lines 141-168). `set` is
`Properties::set(PropType, const string&)`, taken as a parameter. -/
def saveConfig (set : P → PropType → String → P) (d : QuadTariDialog P) :
    QuadTariDialog P :=
  let d :=
    if d.myLeftPortLabel.isEnabled then
      let controller := d.myLeft1Port.getSelectedTag
      let d := { d with
        myGameProperties := set d.myGameProperties PropType.Controller_Left1 controller }
      let controller := d.myLeft2Port.getSelectedTag
      { d with
        myGameProperties := set d.myGameProperties PropType.Controller_Left2 controller }
    else
      let d := { d with
        myGameProperties := set d.myGameProperties PropType.Controller_Left1 "" }
      { d with
        myGameProperties := set d.myGameProperties PropType.Controller_Left2 "" }
  if d.myRightPortLabel.isEnabled then
    let controller := d.myRight1Port.getSelectedTag
    let d := { d with
      myGameProperties := set d.myGameProperties PropType.Controller_Right1 controller }
    let controller := d.myRight2Port.getSelectedTag
    { d with
      myGameProperties := set d.myGameProperties PropType.Controller_Right2 controller }
  else
    let d := { d with
      myGameProperties := set d.myGameProperties PropType.Controller_Right1 "" }
    { d with
      myGameProperties := set d.myGameProperties PropType.Controller_Right2 "" }

end QuadTariDialog

/-- A store with one string per property, in which `set` overwrites one entry; it
stands for `Properties` when the dialog is evaluated on concrete inputs. -/
def TableProperties : Type := PropType → String

/-- Reading a property of the table. -/
def TableProperties.get (p : TableProperties) (k : PropType) : String := p k

/-- Writing a property of the table. -/
def TableProperties.set (p : TableProperties) (k : PropType) (v : String) :
    TableProperties :=
  fun k' => if k' = k then v else p k'

/-- An `open()` that resets the four popups to the first entry of their list
("JOYSTICK") and leaves the rest of the dialog alone; it stands for `Dialog::open()`
when `show` is evaluated on concrete inputs. -/
def QuadTariDialog.openReset {P : Type} (d : QuadTariDialog P) : QuadTariDialog P :=
  QuadTariDialog.select "JOYSTICK" "JOYSTICK" "JOYSTICK" "JOYSTICK" d

/-! ## JoystickDialog (JoystickDialog.cxx) -/

/-- Modelled from the spec: the list widget of the GUI toolkit (StringListWidget.hxx is
not among the sources), reduced to the displayed strings and the selected row; the
notifications it sends are not part of the model. -/
structure StringListWidget where
  list : List String
  selected : Int
deriving DecidableEq

/-- The toolkit call `setList(list)`. -/
def StringListWidget.setList (w : StringListWidget) (l : List String) :
    StringListWidget :=
  { w with list := l }

/-- The toolkit call `setSelected(item)`; a row outside the list is ignored. -/
def StringListWidget.setSelected (w : StringListWidget) (item : Int) :
    StringListWidget :=
  if 0 ≤ item ∧ item < w.list.length then { w with selected := item } else w

/-- The toolkit call `getSelectedString()`; the empty string when no row is
selected. -/
def StringListWidget.getSelectedString (w : StringListWidget) : String :=
  if 0 ≤ w.selected then w.list.getD w.selected.toNat "" else ""

/-- Modelled from the spec: the text field of the GUI toolkit (EditTextWidget.hxx is
not among the sources), reduced to the text it shows. -/
structure EditTextWidget where
  text : String
deriving DecidableEq

/-- The toolkit call `setText(str)`. -/
def EditTextWidget.setText (w : EditTextWidget) (str : String) : EditTextWidget :=
  { w with text := str }

/-- The members of `JoystickDialog` that `loadConfig` and `handleCommand` touch;
`myJoyIDs` is an `IntArray`. -/
structure JoystickDialog where
  myJoyList : StringListWidget
  myJoyText : EditTextWidget
  myRemoveBtn : Widget
  myJoyIDs : List Int
deriving DecidableEq

/-- What the dialog reaches through `instance().eventHandler()`: the joystick database,
a `VariantList` of (name, value) pairs. `V` is the class `Variant` (Variant.hxx, not
among the sources), taken as a parameter. -/
structure JoystickSystem (V : Type) where
  database : List (String × V)
  dialog : JoystickDialog

/-- The collaborators of `JoystickDialog` that are not among the sources, taken as
parameters: `Variant::toInt()`, `EventHandler::removePhysicalJoystickFromDatabase`,
`Dialog::close()` and `Dialog::handleCommand` of the base class. -/
structure JoystickEnv (V : Type) where
  toInt : V → Int
  removePhysicalJoystickFromDatabase : List (String × V) → String → List (String × V)
  close : JoystickSystem V → JoystickSystem V
  baseHandleCommand : Int → Int → Int → JoystickSystem V → JoystickSystem V

/-- The commands that `JoystickDialog::handleCommand` tells apart; `other c` is any
other command number. -/
inductive Cmd where
  | kOKCmd
  | kRemoveCmd
  | kSelectionChangedCmd
  | other (c : Int)
deriving DecidableEq

namespace JoystickDialog

variable {V : Type}

/-- The loop of `loadConfig` (lines 78-82) over the database, from the lists `sticks`
and `myJoyIDs` it starts with: each entry appends its name to the first and its id to
the second. -/
def loadLoop (toInt : V → Int) (db : List (String × V))
    (acc : List String × List Int) : List String × List Int :=
  db.foldl (fun st i => (st.1 ++ [i.1], st.2 ++ [toInt i.2])) acc

/-- The method `JoystickDialog::loadConfig()` (lines 73-90). -/
def loadConfig (toInt : V → Int) (db : List (String × V)) (d : JoystickDialog) :
    JoystickDialog :=
  let d := { d with myJoyIDs := [] }
  let st := loadLoop toInt db ([], d.myJoyIDs)
  let sticks := st.1
  let d := { d with myJoyIDs := st.2 }
  let d := { d with myJoyList := d.myJoyList.setList sticks }
  let d := { d with myJoyList := d.myJoyList.setSelected 0 }
  if sticks.length = 0 then
    let d := { d with myRemoveBtn := d.myRemoveBtn.setEnabled false }
    { d with myJoyText := d.myJoyText.setText "" }
  else d

/-- The text that `buf << "J" << id` leaves in the stream. -/
def joyText (id : Int) : String := "J" ++ toString id

/-- The method `JoystickDialog::handleCommand(sender, cmd, data, id)` (lines 93-126).
Reading `myJoyIDs[data]` outside the vector is undefined; the model returns `none`
there. -/
def handleCommand (env : JoystickEnv V) (cmd : Cmd) (data id : Int)
    (s : JoystickSystem V) : Option (JoystickSystem V) :=
  match cmd with
  | Cmd.kOKCmd => some (env.close s)
  | Cmd.kRemoveCmd =>
      let db := env.removePhysicalJoystickFromDatabase s.database
        s.dialog.myJoyList.getSelectedString
      some { database := db, dialog := loadConfig env.toInt db s.dialog }
  | Cmd.kSelectionChangedCmd =>
      if 0 ≤ data then
        match s.dialog.myJoyIDs[data.toNat]? with
        | none => none
        | some joyID =>
            if joyID ≥ 0 then
              let d := { s.dialog with
                myRemoveBtn := s.dialog.myRemoveBtn.setEnabled false }
              some { s with dialog := { d with myJoyText := d.myJoyText.setText (joyText joyID) } }
            else
              let d := { s.dialog with
                myRemoveBtn := s.dialog.myRemoveBtn.setEnabled true }
              some { s with dialog := { d with myJoyText := d.myJoyText.setText "Unplugged" } }
      else none
  | Cmd.other c => some (env.baseHandleCommand c data id s)

end JoystickDialog

/-- A database holding the joystick ids as integers, with collaborators that do the
least the dialog needs; used to evaluate the dialog on concrete inputs. -/
def JoystickEnv.plain : JoystickEnv Int where
  toInt := fun v => v
  removePhysicalJoystickFromDatabase := fun db name => db.filter (fun e => e.1 != name)
  close := fun s => s
  baseHandleCommand := fun _ _ _ s => s

/-! ## Concrete inputs -/

/-- A dialog on a table of properties that all hold "OLD", every widget disabled and
no popup entry selected. -/
def QuadTariDialog.sample : QuadTariDialog TableProperties where
  myLeftPortLabel := ⟨false⟩
  myLeft1Port := ⟨false, ""⟩
  myLeft2Port := ⟨false, ""⟩
  myRightPortLabel := ⟨false⟩
  myRight1Port := ⟨false, ""⟩
  myRight2Port := ⟨false, ""⟩
  myGameProperties := fun _ => "OLD"

/-- A joystick dialog showing two sticks, the first plugged in as joystick 3 and the
second unplugged, over a database that has since grown a third entry. -/
def JoystickSystem.sample : JoystickSystem Int where
  database := [("Stick A", 3), ("Stick B", -1), ("Stick C", 0)]
  dialog :=
    { myJoyList := ⟨["Stick A", "Stick B"], 1⟩
      myJoyText := ⟨""⟩
      myRemoveBtn := ⟨false⟩
      myJoyIDs := [3, -1] }

/-! ## Properties of Bezel::Info -/

/-- C4: a default-constructed `Info` stands for "no bezel": `isShown()` is false,
`size()` is 1 by 1 and `window()` is the 1 by 1 rectangle; so a `Bezel` on which no
`load()` has been attempted reports `isShown() == false`. -/
theorem Bezel.Info.default_is_no_bezel :
    Bezel.Info.defaultInfo.isShown = false ∧
      Bezel.Info.defaultInfo.size = ⟨1, 1⟩ ∧
      Bezel.Info.defaultInfo.window = Common.Rect.ofWH 1 1 ∧
      Bezel.Info.defaultInfo.window.w = 1 ∧ Bezel.Info.defaultInfo.window.h = 1 ∧
      Bezel.create.info = Bezel.Info.defaultInfo ∧
      Bezel.create.isShown = false :=
  ⟨rfl, rfl, rfl, rfl, rfl, rfl, rfl⟩

/-- C5: on a default-constructed `Info` the ratios are defined: the divisors are the
width and height 1 of the default window, not 0, and both ratios are exactly 1. -/
theorem Bezel.Info.default_ratio_one :
    Bezel.Info.defaultInfo.isShown = false ∧
      Bezel.Info.defaultInfo.window.w = 1 ∧ Bezel.Info.defaultInfo.window.h = 1 ∧
      Bezel.Info.defaultInfo.window.w ≠ 0 ∧ Bezel.Info.defaultInfo.window.h ≠ 0 ∧
      Bezel.Info.defaultInfo.ratioW = Double.finite 1 ∧
      Bezel.Info.defaultInfo.ratioH = Double.finite 1 := by
  refine ⟨rfl, rfl, rfl, by decide, by decide, ?_, ?_⟩ <;>
    simp [Bezel.Info.ratioW, Bezel.Info.ratioH, Bezel.Info.defaultInfo, Bezel.Info.size,
      Bezel.Info.window, Common.Rect.ofWH, Double.divUInt32]

/-- A sequence of calls leaves an `Info` object as it was. -/
theorem Bezel.Info.run_eq_self (ops : List Bezel.Info.Op) (i : Bezel.Info) :
    Bezel.Info.run ops i = i := by
  induction ops generalizing i with
  | nil => rfl
  | cons op ops ih =>
      have h : (Bezel.Info.call op i).2 = i := by cases op <;> rfl
      simp only [Bezel.Info.run]
      rw [h]
      exact ih i

/-- C6: `Info(s, w)` is shown, has size `s` and window `w`, and is immutable: whatever
operations are called on it, the object stays the same, so a read made after them
returns what the same read returns before them. -/
theorem Bezel.Info.ofSizeWindow_immutable (s : Common.Size) (w : Common.Rect) :
    (Bezel.Info.ofSizeWindow s w).isShown = true ∧
      (Bezel.Info.ofSizeWindow s w).size = s ∧
      (Bezel.Info.ofSizeWindow s w).window = w ∧
      (∀ op : Bezel.Info.Op,
        (Bezel.Info.call op (Bezel.Info.ofSizeWindow s w)).2
          = Bezel.Info.ofSizeWindow s w) ∧
      (∀ (ops : List Bezel.Info.Op) (op : Bezel.Info.Op),
        Bezel.Info.run ops (Bezel.Info.ofSizeWindow s w) = Bezel.Info.ofSizeWindow s w ∧
        (Bezel.Info.call op (Bezel.Info.run ops (Bezel.Info.ofSizeWindow s w))).1
          = (Bezel.Info.call op (Bezel.Info.ofSizeWindow s w)).1) := by
  refine ⟨rfl, rfl, rfl, ?_, ?_⟩
  · intro op
    cases op <;> rfl
  · intro ops op
    rw [Bezel.Info.run_eq_self]
    exact ⟨rfl, rfl⟩

/-! ## Properties of QuadTariDialog -/

/-- C8: for a property store in which `set` overwrites one key, and an `open()` that
leaves the port labels and the game properties alone: after
`show(enableLeft, enableRight)` and any selection in the four popups, `saveConfig`
leaves in each controller property of a side shown enabled the tag selected in its
popup, in each controller property of a side shown disabled the empty string, and in
every other property what it held before. -/
theorem QuadTariDialog.saveConfig_after_show {P : Type}
    (get : P → PropType → String) (set : P → PropType → String → P)
    (hsame : ∀ p k v, get (set p k v) k = v)
    (hother : ∀ p k k2 v, k2 ≠ k → get (set p k v) k2 = get p k2)
    (openDialog : QuadTariDialog P → QuadTariDialog P)
    (hopen : ∀ d, (openDialog d).myLeftPortLabel = d.myLeftPortLabel ∧
      (openDialog d).myRightPortLabel = d.myRightPortLabel ∧
      (openDialog d).myGameProperties = d.myGameProperties)
    (enableLeft enableRight : Bool) (left1 left2 right1 right2 : String)
    (d : QuadTariDialog P) :
    get (QuadTariDialog.saveConfig set (QuadTariDialog.select left1 left2 right1 right2
          (QuadTariDialog.show openDialog enableLeft enableRight d))).myGameProperties
        PropType.Controller_Left1 = (if enableLeft then left1 else "") ∧
      get (QuadTariDialog.saveConfig set (QuadTariDialog.select left1 left2 right1 right2
          (QuadTariDialog.show openDialog enableLeft enableRight d))).myGameProperties
        PropType.Controller_Left2 = (if enableLeft then left2 else "") ∧
      get (QuadTariDialog.saveConfig set (QuadTariDialog.select left1 left2 right1 right2
          (QuadTariDialog.show openDialog enableLeft enableRight d))).myGameProperties
        PropType.Controller_Right1 = (if enableRight then right1 else "") ∧
      get (QuadTariDialog.saveConfig set (QuadTariDialog.select left1 left2 right1 right2
          (QuadTariDialog.show openDialog enableLeft enableRight d))).myGameProperties
        PropType.Controller_Right2 = (if enableRight then right2 else "") ∧
      ∀ k, k ≠ PropType.Controller_Left1 → k ≠ PropType.Controller_Left2 →
        k ≠ PropType.Controller_Right1 → k ≠ PropType.Controller_Right2 →
        get (QuadTariDialog.saveConfig set (QuadTariDialog.select left1 left2 right1 right2
          (QuadTariDialog.show openDialog enableLeft enableRight d))).myGameProperties k
          = get d.myGameProperties k := by
  have h12 : PropType.Controller_Left1 ≠ PropType.Controller_Left2 := by decide
  have h13 : PropType.Controller_Left1 ≠ PropType.Controller_Right1 := by decide
  have h14 : PropType.Controller_Left1 ≠ PropType.Controller_Right2 := by decide
  have h23 : PropType.Controller_Left2 ≠ PropType.Controller_Right1 := by decide
  have h24 : PropType.Controller_Left2 ≠ PropType.Controller_Right2 := by decide
  have h34 : PropType.Controller_Right1 ≠ PropType.Controller_Right2 := by decide
  cases enableLeft <;> cases enableRight <;>
    simp [QuadTariDialog.saveConfig, QuadTariDialog.select, QuadTariDialog.show,
      Widget.isEnabled, Widget.setEnabled, PopUpWidget.getSelectedTag,
      PopUpWidget.setEnabled, hopen, hsame, hother, h12, h13, h14, h23, h24, h34] <;>
    intro k k1 k2 k3 k4 <;>
    simp [hother, k1, k2, k3, k4]

/-- C8 on a table of properties, with the left side shown enabled and the right side
disabled, and "PADDLES", "DRIVING", "SAVEKEY", "ATARIVOX" selected in the popups. -/
theorem QuadTariDialog.saveConfig_after_show_witness :
    ((∀ (p : TableProperties) k v, (p.set k v).get k = v) ∧
      (∀ (p : TableProperties) k k2 v, k2 ≠ k → (p.set k v).get k2 = p.get k2) ∧
      (∀ d : QuadTariDialog TableProperties,
        (QuadTariDialog.openReset d).myLeftPortLabel = d.myLeftPortLabel ∧
        (QuadTariDialog.openReset d).myRightPortLabel = d.myRightPortLabel ∧
        (QuadTariDialog.openReset d).myGameProperties = d.myGameProperties)) ∧
      ((QuadTariDialog.saveConfig TableProperties.set
          (QuadTariDialog.select "PADDLES" "DRIVING" "SAVEKEY" "ATARIVOX"
            (QuadTariDialog.show QuadTariDialog.openReset true false
              QuadTariDialog.sample))).myGameProperties.get
          PropType.Controller_Left1 = "PADDLES" ∧
        (QuadTariDialog.saveConfig TableProperties.set
          (QuadTariDialog.select "PADDLES" "DRIVING" "SAVEKEY" "ATARIVOX"
            (QuadTariDialog.show QuadTariDialog.openReset true false
              QuadTariDialog.sample))).myGameProperties.get
          PropType.Controller_Left2 = "DRIVING" ∧
        (QuadTariDialog.saveConfig TableProperties.set
          (QuadTariDialog.select "PADDLES" "DRIVING" "SAVEKEY" "ATARIVOX"
            (QuadTariDialog.show QuadTariDialog.openReset true false
              QuadTariDialog.sample))).myGameProperties.get
          PropType.Controller_Right1 = "" ∧
        (QuadTariDialog.saveConfig TableProperties.set
          (QuadTariDialog.select "PADDLES" "DRIVING" "SAVEKEY" "ATARIVOX"
            (QuadTariDialog.show QuadTariDialog.openReset true false
              QuadTariDialog.sample))).myGameProperties.get
          PropType.Controller_Right2 = "" ∧
        (QuadTariDialog.saveConfig TableProperties.set
          (QuadTariDialog.select "PADDLES" "DRIVING" "SAVEKEY" "ATARIVOX"
            (QuadTariDialog.show QuadTariDialog.openReset true false
              QuadTariDialog.sample))).myGameProperties.get
          PropType.Cart_MD5 = "OLD") := by
  have hsame : ∀ (p : TableProperties) k v, (p.set k v).get k = v := by
    intro p k v
    simp [TableProperties.get, TableProperties.set]
  have hother : ∀ (p : TableProperties) k k2 v, k2 ≠ k → (p.set k v).get k2 = p.get k2 := by
    intro p k k2 v h
    simp [TableProperties.get, TableProperties.set, h]
  have hopen : ∀ d : QuadTariDialog TableProperties,
      (QuadTariDialog.openReset d).myLeftPortLabel = d.myLeftPortLabel ∧
      (QuadTariDialog.openReset d).myRightPortLabel = d.myRightPortLabel ∧
      (QuadTariDialog.openReset d).myGameProperties = d.myGameProperties :=
    fun d => ⟨rfl, rfl, rfl⟩
  have h := QuadTariDialog.saveConfig_after_show TableProperties.get TableProperties.set
    hsame hother QuadTariDialog.openReset hopen true false
    "PADDLES" "DRIVING" "SAVEKEY" "ATARIVOX" QuadTariDialog.sample
  refine ⟨⟨hsame, hother, hopen⟩, ?_, ?_, ?_, ?_, ?_⟩
  · simpa using h.1
  · simpa using h.2.1
  · simpa using h.2.2.1
  · simpa using h.2.2.2.1
  · exact (h.2.2.2.2 PropType.Cart_MD5 (by decide) (by decide) (by decide) (by decide)).trans
      rfl

/-! ## Properties of JoystickDialog -/

/-- The loop of `loadConfig` appends to both lists, entry by entry, in the order of
the database. -/
theorem JoystickDialog.loadLoop_eq {V : Type} (toInt : V → Int) (db : List (String × V))
    (acc : List String × List Int) :
    JoystickDialog.loadLoop toInt db acc
      = (acc.1 ++ db.map (fun e => e.1), acc.2 ++ db.map (fun e => toInt e.2)) := by
  unfold JoystickDialog.loadLoop
  induction db generalizing acc with
  | nil => simp
  | cons e db ih => simp [List.foldl_cons, ih]

/-- The list and the ids that `loadConfig` leaves in the dialog. -/
theorem JoystickDialog.loadConfig_lists {V : Type} (toInt : V → Int)
    (db : List (String × V)) (d : JoystickDialog) :
    (JoystickDialog.loadConfig toInt db d).myJoyList.list = db.map (fun e => e.1) ∧
      (JoystickDialog.loadConfig toInt db d).myJoyIDs = db.map (fun e => toInt e.2) := by
  unfold JoystickDialog.loadConfig
  simp only [JoystickDialog.loadLoop_eq, List.nil_append]
  unfold StringListWidget.setSelected StringListWidget.setList
  constructor <;> split <;> split <;> rfl

/-- C9: whatever the dialog held before, after `loadConfig` the displayed names are
the names of the database and `myJoyIDs` the ids stored with them, one per name and in
the same order, so every row of the list is an index into `myJoyIDs`; the same holds
after the Remove command, for the database it leaves. -/
theorem JoystickDialog.loadConfig_ids {V : Type} (env : JoystickEnv V)
    (db : List (String × V)) (d : JoystickDialog) :
    ((JoystickDialog.loadConfig env.toInt db d).myJoyList.list = db.map (fun e => e.1) ∧
      (JoystickDialog.loadConfig env.toInt db d).myJoyIDs
        = db.map (fun e => env.toInt e.2) ∧
      (JoystickDialog.loadConfig env.toInt db d).myJoyIDs.length
        = (JoystickDialog.loadConfig env.toInt db d).myJoyList.list.length ∧
      ∀ i, i < (JoystickDialog.loadConfig env.toInt db d).myJoyList.list.length →
        ∃ e, db[i]? = some e ∧
          (JoystickDialog.loadConfig env.toInt db d).myJoyList.list[i]? = some e.1 ∧
          (JoystickDialog.loadConfig env.toInt db d).myJoyIDs[i]?
            = some (env.toInt e.2)) ∧
      ∀ data id : Int,
        ∃ s, JoystickDialog.handleCommand env Cmd.kRemoveCmd data id ⟨db, d⟩ = some s ∧
          s.database = env.removePhysicalJoystickFromDatabase db
            d.myJoyList.getSelectedString ∧
          s.dialog.myJoyList.list = s.database.map (fun e => e.1) ∧
          s.dialog.myJoyIDs = s.database.map (fun e => env.toInt e.2) ∧
          s.dialog.myJoyIDs.length = s.dialog.myJoyList.list.length := by
  obtain ⟨hl, hi⟩ := JoystickDialog.loadConfig_lists env.toInt db d
  refine ⟨⟨hl, hi, ?_, ?_⟩, ?_⟩
  · rw [hl, hi]; simp
  · intro i h
    rw [hl, List.length_map] at h
    refine ⟨db[i], ?_, ?_, ?_⟩
    · simp [h]
    · rw [hl]; simp [h]
    · rw [hi]; simp [h]
  · intro data id
    obtain ⟨hl2, hi2⟩ := JoystickDialog.loadConfig_lists env.toInt
      (env.removePhysicalJoystickFromDatabase db d.myJoyList.getSelectedString) d
    refine ⟨_, rfl, rfl, hl2, hi2, ?_⟩
    show (JoystickDialog.loadConfig env.toInt _ d).myJoyIDs.length
      = (JoystickDialog.loadConfig env.toInt _ d).myJoyList.list.length
    rw [hl2, hi2]; simp

/-- The stream prints a non-negative id as its decimal digits. -/
theorem JoystickDialog.joyText_of_nonneg (joyID : Int) (h : 0 ≤ joyID) :
    JoystickDialog.joyText joyID = "J" ++ Nat.repr joyID.toNat := by
  cases joyID with
  | ofNat n => rfl
  | negSucc n => exact absurd h (by simp)

/-- C10: for a selection-changed command whose row `data` is an index into `myJoyIDs`,
`handleCommand` enables the Remove button exactly when the id of the row is negative:
for an id at least 0, Remove is disabled and the text is "J" followed by the id in
decimal; for a negative id, Remove is enabled and the text is "Unplugged". -/
theorem JoystickDialog.selectionChanged {V : Type} (env : JoystickEnv V)
    (s : JoystickSystem V) (data id : Int)
    (h0 : 0 ≤ data) (h1 : data.toNat < s.dialog.myJoyIDs.length) :
    ∃ t, JoystickDialog.handleCommand env Cmd.kSelectionChangedCmd data id s = some t ∧
      (t.dialog.myRemoveBtn.isEnabled = true ↔ s.dialog.myJoyIDs[data.toNat] < 0) ∧
      (0 ≤ s.dialog.myJoyIDs[data.toNat] →
        t.dialog.myRemoveBtn.isEnabled = false ∧
        t.dialog.myJoyText.text
          = "J" ++ Nat.repr (s.dialog.myJoyIDs[data.toNat]).toNat) ∧
      (s.dialog.myJoyIDs[data.toNat] < 0 →
        t.dialog.myRemoveBtn.isEnabled = true ∧
        t.dialog.myJoyText.text = "Unplugged") ∧
      t.dialog.myJoyIDs = s.dialog.myJoyIDs ∧
      t.dialog.myJoyList = s.dialog.myJoyList ∧
      t.database = s.database := by
  have hget : s.dialog.myJoyIDs[data.toNat]? = some s.dialog.myJoyIDs[data.toNat] := by
    simp [h1]
  by_cases hid : 0 ≤ s.dialog.myJoyIDs[data.toNat]
  · simp only [JoystickDialog.handleCommand, h0, if_true, hget, ge_iff_le, hid]
    refine ⟨_, rfl, ?_⟩
    · simp [Widget.isEnabled, Widget.setEnabled, EditTextWidget.setText, hid,
        JoystickDialog.joyText_of_nonneg _ hid]
  · have hneg : s.dialog.myJoyIDs[data.toNat] < 0 := not_le.mp hid
    simp only [JoystickDialog.handleCommand, h0, if_true, hget, ge_iff_le, hid, if_false]
    refine ⟨_, rfl, ?_⟩
    · simp [Widget.isEnabled, Widget.setEnabled, EditTextWidget.setText, hneg]

/-- C10 on a dialog with the ids 3 and -1: selecting row 0 disables Remove and shows
"J3", as the theorem says for an id at least 0. -/
theorem JoystickDialog.selectionChanged_witness :
    ((0 : Int) ≤ 0 ∧ (0 : Int).toNat < JoystickSystem.sample.dialog.myJoyIDs.length) ∧
      ∃ t, JoystickDialog.handleCommand JoystickEnv.plain Cmd.kSelectionChangedCmd 0 0
          JoystickSystem.sample = some t ∧
        t.dialog.myRemoveBtn.isEnabled = false ∧ t.dialog.myJoyText.text = "J3" := by
  refine ⟨⟨by decide, by decide⟩, ?_⟩
  obtain ⟨t, ht, _, hpos, _⟩ := JoystickDialog.selectionChanged JoystickEnv.plain
    JoystickSystem.sample 0 0 (by decide) (by decide)
  exact ⟨t, ht, (hpos (by decide)).1, (hpos (by decide)).2.trans (by decide)⟩

end Stella
